import Mathlib

/-!
Verification of the "drops" rain-on-a-puddle simulation.

This file gives a shallow embedding of the numeric core of the program:
the intensity state (`state.ts`), the ripple pool (`ripple.ts`), the
ordered-dither post-process (`renderer.ts`), and the readiness guards of
the audio modules (`audio/transient.ts`, `audio/rain.ts`).  JavaScript
numbers are modelled as real numbers (where `Math.exp` is involved) or as
rationals (everywhere else); `Math.random()` draws are injected as
explicit parameters, one per call site; module-level mutable state is
passed explicitly.
-/

set_option maxRecDepth 100000

namespace Drops

/-! ## Intensity state (`state.ts`, values from `config.ts`) -/

/-- Intensity-related configuration values, from `config.ts`. -/
structure IntensityCfg where
  baselineIntensity : ℝ
  decayRate : ℝ
  clickImpulseStrength : ℝ

/-- The default configuration values of `config.ts`. -/
def intensityConfig : IntensityCfg :=
  { baselineIntensity := 0.2, decayRate := 0.4, clickImpulseStrength := 0.4 }

/-- `addImpulse` from `state.ts`: `intensity = Math.min(1, intensity + amount)`.
The module-level `intensity` variable is passed and returned explicitly. -/
def addImpulse (intensity amount : ℝ) : ℝ := min 1 (intensity + amount)

/-- `updateState` from `state.ts`:
`intensity = baseline + (intensity - baseline) * Math.exp(-decay * delta)`.
Noncomputable only because `Real.exp` is; every claim about it is settled
symbolically. -/
noncomputable def updateState (cfg : IntensityCfg) (intensity delta : ℝ) : ℝ :=
  cfg.baselineIntensity + (intensity - cfg.baselineIntensity) * Real.exp (-cfg.decayRate * delta)

/-- Folding `updateState` over a list of frame deltas decays exactly by the
exponential of the total elapsed time: the decay is independent of how the
time is split into ticks. -/
lemma foldl_updateState (cfg : IntensityCfg) (v : ℝ) (ds : List ℝ) :
    ds.foldl (updateState cfg) v
      = cfg.baselineIntensity
        + (v - cfg.baselineIntensity) * Real.exp (-cfg.decayRate * ds.sum) := by
  induction ds generalizing v with
  | nil => simp [updateState]
  | cons d ds ih =>
    rw [List.foldl_cons, ih, List.sum_cons]
    unfold updateState
    rw [show -cfg.decayRate * (d + ds.sum)
          = -cfg.decayRate * d + -cfg.decayRate * ds.sum by ring,
        Real.exp_add]
    ring

/-- Helper: a single impulse always lands at or below 1. -/
lemma addImpulse_le_one (v a : ℝ) : addImpulse v a ≤ 1 := min_le_left _ _

/-- Helper: folding impulses from a value that is already ≤ 1 stays ≤ 1. -/
lemma foldl_addImpulse_le_one (as : List ℝ) (v : ℝ) (hv : v ≤ 1) :
    as.foldl addImpulse v ≤ 1 := by
  induction as generalizing v with
  | nil => simpa using hv
  | cons a as ih => exact ih (addImpulse v a) (addImpulse_le_one v a)

/-- C1: for every non-negative frame delta, `updateState` maps the current
value `v` to `baseline + (v − baseline) · exp(−decayRate · delta)`; with the
default configuration (baseline 0.2, decayRate 0.4), `addImpulse(0.4)` from
baseline yields 0.6, and after updates whose deltas total 1 simulated second
the value is exactly `0.2 + 0.4·exp(−0.4)` — in particular within `1e-3` —
independent of how the second is split into ticks. -/
theorem intensity_decay_scenario (ds : List ℝ) (_hpos : ∀ d ∈ ds, 0 ≤ d)
    (hsum : ds.sum = 1) :
    (∀ v d : ℝ, updateState intensityConfig v d
        = 0.2 + (v - 0.2) * Real.exp (-(0.4) * d)) ∧
    addImpulse 0.2 0.4 = 0.6 ∧
    ds.foldl (updateState intensityConfig) (addImpulse 0.2 0.4)
        = 0.2 + 0.4 * Real.exp (-0.4) ∧
    |ds.foldl (updateState intensityConfig) (addImpulse 0.2 0.4)
        - (0.2 + 0.4 * Real.exp (-0.4))| < 1 / 1000 := by
  have himp : addImpulse (0.2 : ℝ) 0.4 = 0.6 := by
    rw [addImpulse, show (0.2 : ℝ) + 0.4 = 0.6 by norm_num,
      min_eq_right (by norm_num : (0.6 : ℝ) ≤ 1)]
  have hfold : ds.foldl (updateState intensityConfig) (addImpulse 0.2 0.4)
      = 0.2 + 0.4 * Real.exp (-0.4) := by
    rw [foldl_updateState, hsum, himp]
    show (0.2 : ℝ) + (0.6 - 0.2) * Real.exp (-(0.4) * 1) = _
    norm_num
  refine ⟨fun v d => rfl, himp, hfold, ?_⟩
  rw [hfold]
  simp only [sub_self, abs_zero]
  norm_num

/-- Witness for C1 at the concrete split `[0.5, 0.5]` of the one second. -/
theorem intensity_decay_scenario_witness :
    (∀ d ∈ [(0.5 : ℝ), 0.5], 0 ≤ d) ∧ ([(0.5 : ℝ), 0.5].sum = 1) ∧
    ((∀ v d : ℝ, updateState intensityConfig v d
        = 0.2 + (v - 0.2) * Real.exp (-(0.4) * d)) ∧
     addImpulse 0.2 0.4 = 0.6 ∧
     [(0.5 : ℝ), 0.5].foldl (updateState intensityConfig) (addImpulse 0.2 0.4)
        = 0.2 + 0.4 * Real.exp (-0.4) ∧
     |[(0.5 : ℝ), 0.5].foldl (updateState intensityConfig) (addImpulse 0.2 0.4)
        - (0.2 + 0.4 * Real.exp (-0.4))| < 1 / 1000) :=
  ⟨by norm_num, by norm_num,
    intensity_decay_scenario [(0.5 : ℝ), 0.5] (by norm_num) (by norm_num)⟩

/-- C2: `addImpulse` computes `min(1, value + amount)`, and no non-empty
sequence of impulses, whatever the magnitudes or repetitions, leaves the
intensity value above 1. -/
theorem addImpulse_clamped (v : ℝ) (as : List ℝ) (h : as ≠ []) :
    (∀ u a : ℝ, addImpulse u a = min 1 (u + a)) ∧
    as.foldl addImpulse v ≤ 1 := by
  refine ⟨fun u a => rfl, ?_⟩
  obtain ⟨a, as, rfl⟩ := List.exists_cons_of_ne_nil h
  rw [List.foldl_cons]
  exact foldl_addImpulse_le_one as _ (addImpulse_le_one v a)

/-- Witness for C2: three large impulses starting from 0.9 stay clamped. -/
theorem addImpulse_clamped_witness :
    ([(5 : ℝ), 7, 100] ≠ []) ∧
    ((∀ u a : ℝ, addImpulse u a = min 1 (u + a)) ∧
     [(5 : ℝ), 7, 100].foldl addImpulse 0.9 ≤ 1) :=
  ⟨by simp, addImpulse_clamped 0.9 [(5 : ℝ), 7, 100] (by simp)⟩

/-! ## Ripple pool (`ripple.ts`, values from `config.ts`)

Rationals stand in for JavaScript numbers; each `Math.random()` call site
receives its draw (a value in `[0,1)`) as an explicit parameter.  The
module-level `pool` array is a `List Ripple` passed explicitly. -/

/-- A min/max range from `config.ts` (e.g. `rippleLifetime: { min: 2, max: 4 }`). -/
structure RangeCfg where
  min : ℚ
  max : ℚ
deriving DecidableEq

/-- Ripple-related configuration values, from `config.ts`. -/
structure RippleCfg where
  rippleSpawnRate : RangeCfg
  rippleLifetime : RangeCfg
  rippleMaxRadius : RangeCfg
  clickRippleScale : ℚ
  maxRipples : ℕ
deriving DecidableEq

/-- The default ripple configuration of `config.ts`. -/
def rippleConfig : RippleCfg :=
  { rippleSpawnRate := ⟨1, 8⟩
    rippleLifetime := ⟨2, 4⟩
    rippleMaxRadius := ⟨50, 100⟩
    clickRippleScale := 1.8
    maxRipples := 150 }

/-- `randomRange` from `utils.ts`: `min + Math.random() * (max - min)`,
with the `Math.random()` draw `u` injected. -/
def randomRange (lo hi u : ℚ) : ℚ := lo + u * (hi - lo)

/-- `lerp` from `utils.ts`. -/
def lerp (a b t : ℚ) : ℚ := a + (b - a) * t

/-- The pooled `Ripple` entity of `ripple.ts`. -/
structure Ripple where
  x : ℚ
  y : ℚ
  radius : ℚ
  maxRadius : ℚ
  opacity : ℚ
  speed : ℚ
  windOffsetX : ℚ
  windOffsetY : ℚ
  isClick : Bool
  active : Bool
deriving DecidableEq

/-- `createInactiveRipple` from `ripple.ts`. -/
def createInactiveRipple : Ripple :=
  { x := 0, y := 0, radius := 0, maxRadius := 0, opacity := 0, speed := 0,
    windOffsetX := 0, windOffsetY := 0, isClick := false, active := false }

/-- `initRipplePool` from `ripple.ts`: fill the pool with `n` inactive
ripples (`n` is `config.maxRipples` in the program). -/
def initRipplePool (n : ℕ) : List Ripple := List.replicate n createInactiveRipple

/-- `getFromPool` from `ripple.ts` returns the first inactive ripple of the
pool, or `null`; modelled as the index of that ripple. -/
def getFromPool (pool : List Ripple) : Option ℕ :=
  pool.findIdx? (fun r => !r.active)

/-- A secondary "ring echo" spawn scheduled through `setTimeout` by
`spawnClickRipple` (delay in milliseconds). -/
structure EchoSpawn where
  delayMs : ℚ
  x : ℚ
  y : ℚ
  maxRadius : ℚ
deriving DecidableEq

/-- `spawnClickRipple` from `ripple.ts`.  `uLife` and `uRad` are the two
`randomRange` draws.  Returns the updated pool together with the list of
secondary spawns the call passes to `setTimeout` (empty when the pool has
no inactive slot, because the function returns before scheduling them). -/
def spawnClickRipple (cfg : RippleCfg) (pool : List Ripple) (x y uLife uRad : ℚ) :
    List Ripple × List EchoSpawn :=
  match getFromPool pool with
  | none => (pool, [])
  | some i =>
    let lifetime := randomRange cfg.rippleLifetime.min cfg.rippleLifetime.max uLife
    let maxRadius :=
      randomRange cfg.rippleMaxRadius.min cfg.rippleMaxRadius.max uRad * cfg.clickRippleScale
    (pool.set i
      { x := x, y := y, radius := 2, maxRadius := maxRadius, opacity := 0.9,
        speed := maxRadius / lifetime, windOffsetX := 0, windOffsetY := 0,
        isClick := true, active := true },
     [⟨60, x, y, maxRadius * 0.8⟩, ⟨120, x, y, maxRadius * 0.6⟩])

/-- `spawnSecondaryRipple` from `ripple.ts` (the `setTimeout` payload). -/
def spawnSecondaryRipple (cfg : RippleCfg) (pool : List Ripple)
    (x y maxRadius uLife : ℚ) : List Ripple :=
  match getFromPool pool with
  | none => pool
  | some i =>
    let lifetime := randomRange cfg.rippleLifetime.min cfg.rippleLifetime.max uLife
    pool.set i
      { x := x, y := y, radius := 2, maxRadius := maxRadius, opacity := 0.6,
        speed := maxRadius / lifetime, windOffsetX := 0, windOffsetY := 0,
        isClick := true, active := true }

/-- `spawnAmbientRipple` from `ripple.ts`; `uLife uRad ux uy uOp` are its
five `randomRange` draws.  (The `onAmbientSpawn` audio callback receives the
spawn position; it does not touch the pool and is not modelled here.) -/
def spawnAmbientRipple (cfg : RippleCfg) (pool : List Ripple)
    (width height uLife uRad ux uy uOp : ℚ) : List Ripple :=
  match getFromPool pool with
  | none => pool
  | some i =>
    let lifetime := randomRange cfg.rippleLifetime.min cfg.rippleLifetime.max uLife
    let maxRadius := randomRange cfg.rippleMaxRadius.min cfg.rippleMaxRadius.max uRad * 0.6
    pool.set i
      { x := randomRange 0 width ux, y := randomRange 0 height uy, radius := 3,
        maxRadius := maxRadius, opacity := randomRange 0.5 0.8 uOp,
        speed := maxRadius / lifetime, windOffsetX := 0, windOffsetY := 0,
        isClick := false, active := true }

/-- `getActiveRipples` from `ripple.ts`. -/
def getActiveRipples (pool : List Ripple) : List Ripple := pool.filter (·.active)

/-- The number of simultaneously active ripples in the pool. -/
def countActive (pool : List Ripple) : ℕ := (getActiveRipples pool).length

/-- One spawn request against the pool: a click, a deferred secondary ring,
or an ambient raindrop (each carrying its injected random draws). -/
inductive SpawnReq where
  | click (x y uLife uRad : ℚ)
  | secondary (x y maxRadius uLife : ℚ)
  | ambient (width height uLife uRad ux uy uOp : ℚ)
deriving DecidableEq

/-- Apply one spawn request to the pool. -/
def applySpawn (cfg : RippleCfg) (pool : List Ripple) : SpawnReq → List Ripple
  | .click x y uLife uRad => (spawnClickRipple cfg pool x y uLife uRad).1
  | .secondary x y maxRadius uLife => spawnSecondaryRipple cfg pool x y maxRadius uLife
  | .ambient w h uLife uRad ux uy uOp => spawnAmbientRipple cfg pool w h uLife uRad ux uy uOp

/-- Apply a sequence of spawn requests to the pool. -/
def applySpawns (cfg : RippleCfg) (pool : List Ripple) (reqs : List SpawnReq) : List Ripple :=
  reqs.foldl (applySpawn cfg) pool

/-- Spawning never changes the size of the pool. -/
lemma applySpawn_length (cfg : RippleCfg) (pool : List Ripple) (req : SpawnReq) :
    (applySpawn cfg pool req).length = pool.length := by
  cases req <;>
    simp only [applySpawn, spawnClickRipple, spawnSecondaryRipple, spawnAmbientRipple] <;>
    (cases h : getFromPool pool <;> simp)

/-- A sequence of spawns never changes the size of the pool. -/
lemma applySpawns_length (cfg : RippleCfg) (pool : List Ripple) (reqs : List SpawnReq) :
    (applySpawns cfg pool reqs).length = pool.length := by
  induction reqs generalizing pool with
  | nil => rfl
  | cons r rs ih =>
    rw [applySpawns, List.foldl_cons]
    rw [show (rs.foldl (applySpawn cfg) (applySpawn cfg pool r)) =
      applySpawns cfg (applySpawn cfg pool r) rs from rfl, ih, applySpawn_length]

/-- A spawn request against a pool with no inactive slot is dropped: the
pool is returned unchanged. -/
lemma applySpawn_full (cfg : RippleCfg) (pool : List Ripple) (req : SpawnReq)
    (hfull : getFromPool pool = none) : applySpawn cfg pool req = pool := by
  cases req <;>
    simp only [applySpawn, spawnClickRipple, spawnSecondaryRipple, spawnAmbientRipple, hfull]

/-- Scenario C, first click spawn: capacity-2 pool after one click. -/
def scenarioPool1 : List Ripple :=
  (spawnClickRipple rippleConfig (initRipplePool 2) 0 0 0 0).1

/-- Scenario C, second click spawn. -/
def scenarioPool2 : List Ripple := (spawnClickRipple rippleConfig scenarioPool1 0 0 0 0).1

/-- Scenario C, third (dropped) click spawn. -/
def scenarioPool3 : List Ripple := (spawnClickRipple rippleConfig scenarioPool2 0 0 0 0).1

/-- A saturated pool of capacity 1, used as a concrete full pool. -/
def saturatedPool : List Ripple :=
  (spawnClickRipple rippleConfig (initRipplePool 1) 5 6 0 0).1

/-- C3: the number of simultaneously active ripples after any sequence of
spawn requests against a pool of capacity `n` never exceeds `n`; a spawn
request against a pool with no inactive slot leaves every ripple unchanged;
and with capacity 2, three back-to-back click spawns (before any tick) leave
exactly 2 active ripples, the third being dropped without changing the pool. -/
theorem pool_capacity_bound (cfg : RippleCfg) (n : ℕ) (reqs : List SpawnReq)
    (pool : List Ripple) (req : SpawnReq) (hfull : getFromPool pool = none) :
    countActive (applySpawns cfg (initRipplePool n) reqs) ≤ n ∧
    applySpawn cfg pool req = pool ∧
    scenarioPool3 = scenarioPool2 ∧ countActive scenarioPool3 = 2 := by
  refine ⟨?_, applySpawn_full cfg pool req hfull, by with_unfolding_all decide, by with_unfolding_all decide⟩
  calc countActive (applySpawns cfg (initRipplePool n) reqs)
      ≤ (applySpawns cfg (initRipplePool n) reqs).length :=
        List.length_filter_le _ _
    _ = n := by rw [applySpawns_length, initRipplePool, List.length_replicate]

/-- Witness for C3: a concrete full pool of capacity 1 and a concrete request. -/
theorem pool_capacity_bound_witness :
    (getFromPool saturatedPool = none) ∧
    (countActive (applySpawns rippleConfig (initRipplePool 2)
        [.click 1 2 0 0, .ambient 9 9 0 0 0 0 0]) ≤ 2 ∧
     applySpawn rippleConfig saturatedPool (.click 3 4 0 0) = saturatedPool ∧
     scenarioPool3 = scenarioPool2 ∧ countActive scenarioPool3 = 2) :=
  ⟨by with_unfolding_all decide,
    pool_capacity_bound rippleConfig 2 [.click 1 2 0 0, .ambient 9 9 0 0 0 0 0]
      saturatedPool (.click 3 4 0 0) (by with_unfolding_all decide)⟩

/-- C9: when the pool has no inactive slot, `spawnClickRipple` returns
before scheduling anything: the pool is unchanged and the two delayed
secondary "ring echo" spawns (60 ms and 120 ms) are never scheduled. -/
theorem dropped_click_schedules_no_echo (cfg : RippleCfg) (pool : List Ripple)
    (x y uLife uRad : ℚ) (hfull : getFromPool pool = none) :
    spawnClickRipple cfg pool x y uLife uRad = (pool, []) := by
  simp only [spawnClickRipple, hfull]

/-- Witness for C9 at a concrete saturated pool of capacity 1. -/
theorem dropped_click_schedules_no_echo_witness :
    (getFromPool saturatedPool = none) ∧
    spawnClickRipple rippleConfig saturatedPool 7 8 0 0 = (saturatedPool, []) :=
  ⟨by with_unfolding_all decide,
    dropped_click_schedules_no_echo rippleConfig saturatedPool 7 8 0 0 (by with_unfolding_all decide)⟩

/-! ## Per-ripple update (`updateRipples` loop body, `ripple.ts` lines 164–190) -/

/-- Radius expansion of one tick: `ripple.radius += ripple.speed * delta`. -/
def rippleNewRadius (delta : ℚ) (r : Ripple) : ℚ := r.radius + r.speed * delta

/-- Opacity after one tick: once radial progress (computed from the already
updated radius) exceeds the 30% fade start, the opacity is scaled by
`1 - fadeProgress * 0.03`. -/
def rippleNewOpacity (delta : ℚ) (r : Ripple) : ℚ :=
  if (0.3 : ℚ) < rippleNewRadius delta r / r.maxRadius then
    r.opacity * (1 - (rippleNewRadius delta r / r.maxRadius - 0.3) / (1 - 0.3) * 0.03)
  else r.opacity

/-- The body of the per-ripple update loop of `updateRipples`: inactive
ripples are skipped; active ones expand, drift with the wind sample
(`getWind(ripple.x, ripple.y)`, injected as `wind`), fade, and deactivate
when `radius ≥ maxRadius` or `opacity < 0.05`. -/
def updateRipple (wind : ℚ × ℚ) (delta : ℚ) (r : Ripple) : Ripple :=
  if r.active = false then r
  else
    { r with
      radius := rippleNewRadius delta r
      windOffsetX := r.windOffsetX + wind.1 * delta * 20
      windOffsetY := r.windOffsetY + wind.2 * delta * 20
      opacity := rippleNewOpacity delta r
      active :=
        if r.maxRadius ≤ rippleNewRadius delta r ∨ rippleNewOpacity delta r < 0.05 then false
        else r.active }

/-- Iterated ticks of the per-ripple update at a fixed delta and wind sample. -/
def tickRipple (wind : ℚ × ℚ) (delta : ℚ) : ℕ → Ripple → Ripple
  | 0, r => r
  | n + 1, r => tickRipple wind delta n (updateRipple wind delta r)

/-- The update step skips inactive ripples (`if (!ripple.active) continue`). -/
lemma updateRipple_inactive (wind : ℚ × ℚ) (delta : ℚ) (r : Ripple)
    (h : r.active = false) : updateRipple wind delta r = r := by
  simp [updateRipple, h]

/-- An inactive ripple stays bit-for-bit unchanged over any number of ticks. -/
lemma tickRipple_inactive (wind : ℚ × ℚ) (delta : ℚ) (r : Ripple)
    (h : r.active = false) : ∀ n, tickRipple wind delta n r = r
  | 0 => rfl
  | n + 1 => by
    rw [tickRipple, updateRipple_inactive wind delta r h,
      tickRipple_inactive wind delta r h n]

/-- C4: per tick with non-negative delta (and the spawn invariants
`0 ≤ speed`, `0 ≤ opacity`): the radius never decreases; the opacity never
increases (in particular once radial progress exceeds 30%, where the fade
multiplier applies); an active ripple is deactivated by the update step
exactly when the updated radius reaches `maxRadius` or the updated opacity
drops below 0.05; and an inactive ripple remains unchanged — hence inactive —
on every subsequent tick until explicitly respawned. -/
theorem ripple_update_invariants (wind : ℚ × ℚ) (delta : ℚ) (r : Ripple)
    (hdelta : 0 ≤ delta) (hspeed : 0 ≤ r.speed) (hop : 0 ≤ r.opacity) :
    r.radius ≤ (updateRipple wind delta r).radius ∧
    (updateRipple wind delta r).opacity ≤ r.opacity ∧
    (r.active = true →
      ((updateRipple wind delta r).active = false ↔
        r.maxRadius ≤ (updateRipple wind delta r).radius ∨
          (updateRipple wind delta r).opacity < 0.05)) ∧
    (r.active = false → ∀ n, tickRipple wind delta n r = r) := by
  have hmono : r.radius ≤ rippleNewRadius delta r := by
    rw [rippleNewRadius]
    nlinarith [mul_nonneg hspeed hdelta]
  have hopa : rippleNewOpacity delta r ≤ r.opacity := by
    rw [rippleNewOpacity]
    split_ifs with h
    · have hfp : 0 ≤ (rippleNewRadius delta r / r.maxRadius - 0.3) / (1 - 0.3) :=
        div_nonneg (by linarith) (by norm_num)
      nlinarith [mul_nonneg hop hfp]
    · exact le_refl _
  cases hact : r.active with
  | false =>
    rw [updateRipple_inactive wind delta r hact]
    exact ⟨le_refl _, le_refl _, by simp [hact], fun _ => tickRipple_inactive wind delta r hact⟩
  | true =>
    have hup : updateRipple wind delta r
        = { r with
            radius := rippleNewRadius delta r
            windOffsetX := r.windOffsetX + wind.1 * delta * 20
            windOffsetY := r.windOffsetY + wind.2 * delta * 20
            opacity := rippleNewOpacity delta r
            active :=
              if r.maxRadius ≤ rippleNewRadius delta r ∨ rippleNewOpacity delta r < 0.05
              then false else r.active } := by
      simp [updateRipple, hact]
    rw [hup]
    refine ⟨hmono, hopa, fun _ => ?_, fun hfalse => by simp_all⟩
    simp only
    split_ifs with hc
    · simpa using hc
    · simp only [hact]
      constructor
      · intro h; cases h
      · intro h; exact absurd h hc

/-- A concrete active click-like ripple used as a witness input. -/
def witRipple : Ripple :=
  { x := 0, y := 0, radius := 40, maxRadius := 90, opacity := 0.9, speed := 30,
    windOffsetX := 0, windOffsetY := 0, isClick := true, active := true }

/-- Witness for C4 at a concrete active click-like ripple. -/
theorem ripple_update_invariants_witness :
    ((0 : ℚ) ≤ 1/60 ∧ (0 : ℚ) ≤ 30 ∧ (0 : ℚ) ≤ 0.9) ∧
    (witRipple.radius ≤ (updateRipple (1, 2) (1/60) witRipple).radius ∧
     (updateRipple (1, 2) (1/60) witRipple).opacity ≤ witRipple.opacity ∧
     (witRipple.active = true →
       ((updateRipple (1, 2) (1/60) witRipple).active = false ↔
         witRipple.maxRadius ≤ (updateRipple (1, 2) (1/60) witRipple).radius ∨
           (updateRipple (1, 2) (1/60) witRipple).opacity < 0.05)) ∧
     (witRipple.active = false → ∀ n, tickRipple (1, 2) (1/60) n witRipple = witRipple)) :=
  ⟨⟨by norm_num, by norm_num, by norm_num⟩,
    ripple_update_invariants (1, 2) (1/60) witRipple (by norm_num)
      (by with_unfolding_all decide) (by with_unfolding_all decide)⟩

/-! ## Scenario B (`C5`): click ripple with maxRadius 90, lifetime 3 s -/

/-- The scenario-B click ripple: draws chosen so `randomRange(2, 4) = 3`
(lifetime 3 s) and `randomRange(50, 100) = 50`, hence
`maxRadius = 50 × 1.8 = 90` and `speed = 90 / 3 = 30` per second. -/
def scenarioClickRipple : Ripple :=
  ((spawnClickRipple rippleConfig (initRipplePool 1) 0 0 (1/2) 0).1).headD createInactiveRipple

/-- C5 counterexample: the spawned scenario-B ripple has speed 30/s, but
after 1.5 s of ticks at 60 fps its radius is 47 (the spawn radius 2 plus
45 of growth), which is not within ±1% of 45. -/
theorem click_scenario_counterexample :
    scenarioClickRipple.maxRadius = 90 ∧ scenarioClickRipple.speed = 30 ∧
    (tickRipple (0, 0) (1/60) 90 scenarioClickRipple).radius = 47 ∧
    ¬ |(tickRipple (0, 0) (1/60) 90 scenarioClickRipple).radius - 45| ≤ 45 / 100 := by
  with_unfolding_all decide

/-- C5 amended: the scenario-B click ripple (maxRadius 90, lifetime 3 s) has
speed 30/s; after 1.5 s of ticks at 60 fps its radius is exactly 47 (2 + 45,
about 4% above 45) and it is still active; after 3.1 s of cumulative ticks
it is inactive. -/
theorem click_scenario_amended :
    scenarioClickRipple.speed = 30 ∧
    (tickRipple (0, 0) (1/60) 90 scenarioClickRipple).radius = 47 ∧
    (tickRipple (0, 0) (1/60) 90 scenarioClickRipple).active = true ∧
    (tickRipple (0, 0) (1/60) 186 scenarioClickRipple).active = false := by
  with_unfolding_all decide

/-! ## Ambient spawn accumulator (`updateRipples`, `ripple.ts` lines 150–162)

The code increments `spawnAccumulator` by `delta * spawnRate`, draws ONE
threshold `0.6 + Math.random() * 0.8` before the `while` loop, and inside the
loop spawns one ambient ripple and subtracts a fresh `0.7 + Math.random() * 0.6`
per iteration.  The threshold draw and the per-iteration decrement draws are
injected (`uThr`, `decDraws`); the loop is modelled by recursion on the list of
decrement draws, which therefore must be long enough to feed every iteration. -/

/-- The `while (spawnAccumulator >= threshold)` drain loop: same `threshold`
at every iteration, one decrement draw consumed per spawn.  Returns the final
accumulator and the number of ambient ripples spawned. -/
def drainLoop (threshold : ℚ) : ℚ → List ℚ → ℚ × ℕ
  | acc, [] => (acc, 0)
  | acc, u :: us =>
    if threshold ≤ acc then
      let rest := drainLoop threshold (acc - (0.7 + u * 0.6)) us
      (rest.1, rest.2 + 1)
    else (acc, 0)

/-- The ambient spawn phase of `updateRipples`: accumulator increment by
`delta * lerp(minRate, maxRate, intensity)`, then the randomized drain. -/
def spawnPhase (cfg : RippleCfg) (intensity delta acc uThr : ℚ) (decDraws : List ℚ) : ℚ × ℕ :=
  let spawnRate := lerp cfg.rippleSpawnRate.min cfg.rippleSpawnRate.max intensity
  drainLoop (0.6 + uThr * 0.8) (acc + delta * spawnRate) decDraws

/-- Drain loop as the specification's words describe it: a FRESH threshold
draw and a fresh decrement draw per drain step.  Defined from the spec's
words only, for comparison with `drainLoop`. -/
def drainLoopFreshThreshold : ℚ → List (ℚ × ℚ) → ℚ × ℕ
  | acc, [] => (acc, 0)
  | acc, (t, u) :: us =>
    if 0.6 + t * 0.8 ≤ acc then
      let rest := drainLoopFreshThreshold (acc - (0.7 + u * 0.6)) us
      (rest.1, rest.2 + 1)
    else (acc, 0)

/-- Spawn phase with the spec's fresh-threshold drain, for comparison. -/
def spawnPhaseFreshThreshold (cfg : RippleCfg) (intensity delta acc : ℚ)
    (draws : List (ℚ × ℚ)) : ℚ × ℕ :=
  let spawnRate := lerp cfg.rippleSpawnRate.min cfg.rippleSpawnRate.max intensity
  drainLoopFreshThreshold (acc + delta * spawnRate) draws

/-- C6 counterexample: on the same uniform draw stream (threshold draw 1/2,
then decrement draws 0 and 1), the code spawns 2 ambient ripples in one tick,
while the fresh-threshold-per-spawn drain the claim describes spawns only 1:
the code's second comparison reuses the tick's single threshold draw instead
of drawing a fresh one. -/
theorem ambient_drain_counterexample :
    (spawnPhase rippleConfig 0 0 2 (1/2) [0, 1]).2 = 2 ∧
    (spawnPhaseFreshThreshold rippleConfig 0 0 2 [(1/2, 0), (1, 0)]).2 = 1 := by
  with_unfolding_all decide

/-- Helper: over draws in `[0,1)`, the drain spawns at most one ripple per
available draw and the total amount drained lies between `0.7` and `1.3`
per spawn. -/
lemma drainLoop_stats (threshold : ℚ) (us : List ℚ) (acc : ℚ)
    (h : ∀ u ∈ us, 0 ≤ u ∧ u < 1) :
    (drainLoop threshold acc us).2 ≤ us.length ∧
    0.7 * ((drainLoop threshold acc us).2 : ℚ) ≤ acc - (drainLoop threshold acc us).1 ∧
    acc - (drainLoop threshold acc us).1 ≤ 1.3 * ((drainLoop threshold acc us).2 : ℚ) := by
  induction us generalizing acc with
  | nil =>
    simp [drainLoop]
  | cons u us ih =>
    have hu : 0 ≤ u ∧ u < 1 := h u (List.mem_cons_self u us)
    have hrest : ∀ v ∈ us, 0 ≤ v ∧ v < 1 := fun v hv => h v (List.mem_cons_of_mem u hv)
    by_cases hc : threshold ≤ acc
    · obtain ⟨c1, c2, c3⟩ := ih (acc - (0.7 + u * 0.6)) hrest
      simp only [drainLoop, if_pos hc]
      refine ⟨Nat.succ_le_succ c1, ?_, ?_⟩
      · push_cast
        nlinarith [hu.1, hu.2]
      · push_cast
        nlinarith [hu.1, hu.2]
    · simp [drainLoop, if_neg hc]

/-- C6 amended: each tick, `updateRipples` increments the accumulator by
`delta × lerp(minRate, maxRate, intensity)` and drains it with ONE threshold
drawn uniformly from `[0.6, 1.4)` for the whole tick (not a fresh one per
spawn), spawning one ambient ripple per drain step and subtracting a fresh
decrement drawn uniformly from `[0.7, 1.3)` per spawn: the spawn count never
exceeds the supply of decrement draws and the total amount drained is between
`0.7` and `1.3` per spawn. -/
theorem ambient_drain_amended (cfg : RippleCfg) (intensity delta acc uThr : ℚ)
    (decDraws : List ℚ) (hThr : 0 ≤ uThr ∧ uThr < 1)
    (hdec : ∀ u ∈ decDraws, 0 ≤ u ∧ u < 1) :
    spawnPhase cfg intensity delta acc uThr decDraws
      = drainLoop (0.6 + uThr * 0.8)
          (acc + delta * lerp cfg.rippleSpawnRate.min cfg.rippleSpawnRate.max intensity)
          decDraws ∧
    (0.6 ≤ 0.6 + uThr * 0.8 ∧ 0.6 + uThr * 0.8 < 1.4) ∧
    (∀ u ∈ decDraws, 0.7 ≤ 0.7 + u * 0.6 ∧ 0.7 + u * 0.6 < 1.3) ∧
    (spawnPhase cfg intensity delta acc uThr decDraws).2 ≤ decDraws.length ∧
    0.7 * ((spawnPhase cfg intensity delta acc uThr decDraws).2 : ℚ)
      ≤ (acc + delta * lerp cfg.rippleSpawnRate.min cfg.rippleSpawnRate.max intensity)
        - (spawnPhase cfg intensity delta acc uThr decDraws).1 ∧
    (acc + delta * lerp cfg.rippleSpawnRate.min cfg.rippleSpawnRate.max intensity)
        - (spawnPhase cfg intensity delta acc uThr decDraws).1
      ≤ 1.3 * ((spawnPhase cfg intensity delta acc uThr decDraws).2 : ℚ) := by
  obtain ⟨s1, s2, s3⟩ :=
    drainLoop_stats (0.6 + uThr * 0.8)
      decDraws
      (acc + delta * lerp cfg.rippleSpawnRate.min cfg.rippleSpawnRate.max intensity) hdec
  exact ⟨rfl, ⟨by nlinarith [hThr.1], by nlinarith [hThr.2]⟩,
    fun u hu => ⟨by nlinarith [(hdec u hu).1], by nlinarith [(hdec u hu).2]⟩,
    s1, s2, s3⟩

/-- Witness for C6 amended at a concrete tick. -/
theorem ambient_drain_amended_witness :
    ((0 : ℚ) ≤ 1/2 ∧ (1/2 : ℚ) < 1) ∧ (∀ u ∈ [(0 : ℚ), 1/2], 0 ≤ u ∧ u < 1) ∧
    (spawnPhase rippleConfig 0 1 1 (1/2) [0, 1/2]
      = drainLoop (0.6 + (1/2) * 0.8)
          (1 + 1 * lerp rippleConfig.rippleSpawnRate.min rippleConfig.rippleSpawnRate.max 0)
          [0, 1/2] ∧
    ((0.6 : ℚ) ≤ 0.6 + (1/2) * 0.8 ∧ (0.6 : ℚ) + (1/2) * 0.8 < 1.4) ∧
    (∀ u ∈ [(0 : ℚ), 1/2], (0.7 : ℚ) ≤ 0.7 + u * 0.6 ∧ (0.7 : ℚ) + u * 0.6 < 1.3) ∧
    (spawnPhase rippleConfig 0 1 1 (1/2) [0, 1/2]).2 ≤ ([(0 : ℚ), 1/2]).length ∧
    0.7 * ((spawnPhase rippleConfig 0 1 1 (1/2) [0, 1/2]).2 : ℚ)
      ≤ (1 + 1 * lerp rippleConfig.rippleSpawnRate.min rippleConfig.rippleSpawnRate.max 0)
        - (spawnPhase rippleConfig 0 1 1 (1/2) [0, 1/2]).1 ∧
    (1 + 1 * lerp rippleConfig.rippleSpawnRate.min rippleConfig.rippleSpawnRate.max 0)
        - (spawnPhase rippleConfig 0 1 1 (1/2) [0, 1/2]).1
      ≤ 1.3 * ((spawnPhase rippleConfig 0 1 1 (1/2) [0, 1/2]).2 : ℚ)) :=
  ⟨⟨by norm_num, by norm_num⟩, by with_unfolding_all decide,
    ambient_drain_amended rippleConfig 0 1 1 (1/2) [0, 1/2]
      ⟨by norm_num, by norm_num⟩ (by with_unfolding_all decide)⟩

/-! ## Ordered dither post-process (`applyDither`, `renderer.ts`)

The RGBA frame buffer `data` is modelled as a total function from flat array
index to channel value, written with pointwise updates; index
`(y * width + x) * 4 + c` holds channel `c` of pixel `(x, y)`.  The
module-level `ditherSize` variable is the `ps` parameter, and the
`data-theme` attribute read by `isLightMode()` is the `lightMode` flag. -/

/-- An RGB theme color (`renderer.ts` theme constants). -/
structure Color where
  r : ℕ
  g : ℕ
  b : ℕ
deriving DecidableEq

/-- Dark-theme background, `{ r: 10, g: 10, b: 12 }`. -/
def DARK_BG : Color := ⟨10, 10, 12⟩

/-- Dark-theme foreground, white. -/
def DARK_FG : Color := ⟨255, 255, 255⟩

/-- Light-theme background, `{ r: 245, g: 245, b: 247 }`. -/
def LIGHT_BG : Color := ⟨245, 245, 247⟩

/-- Light-theme foreground, `{ r: 42, g: 42, b: 52 }`. -/
def LIGHT_FG : Color := ⟨42, 42, 52⟩

/-- `getColors` from `renderer.ts`: (background, foreground) by theme. -/
def getColors (lightMode : Bool) : Color × Color :=
  if lightMode then (LIGHT_BG, LIGHT_FG) else (DARK_BG, DARK_FG)

/-- The 4×4 Bayer matrix of `renderer.ts`, entries divided by 16. -/
def BAYER_4 : List (List ℚ) :=
  [[0, 8, 2, 10], [12, 4, 14, 6], [3, 11, 1, 9], [15, 7, 13, 5]].map
    (List.map (fun v => v / 16))

/-- The 8×8 Bayer matrix of `renderer.ts`, entries divided by 64. -/
def BAYER_8 : List (List ℚ) :=
  [[0, 32, 8, 40, 2, 34, 10, 42],
   [48, 16, 56, 24, 50, 18, 58, 26],
   [12, 44, 4, 36, 14, 46, 6, 38],
   [60, 28, 52, 20, 62, 30, 54, 22],
   [3, 35, 11, 43, 1, 33, 9, 41],
   [51, 19, 59, 27, 49, 17, 57, 25],
   [15, 47, 7, 39, 13, 45, 5, 37],
   [63, 31, 55, 23, 61, 29, 53, 21]].map (List.map (fun v => v / 64))

/-- Pointwise update of the flat frame buffer. -/
def writeAt (data : ℕ → ℕ) (i v : ℕ) : ℕ → ℕ :=
  fun j => if j = i then v else data j

/-- Write the three color channels of pixel `(px, py)` (`data[i] = color.r`
etc.; the alpha channel at `i + 3` is left untouched, as in the source). -/
def setPixel (width : ℕ) (c : Color) (px py : ℕ) (data : ℕ → ℕ) : ℕ → ℕ :=
  writeAt (writeAt (writeAt data ((py * width + px) * 4) c.r)
    ((py * width + px) * 4 + 1) c.g) ((py * width + px) * 4 + 2) c.b

/-- The block-fill double loop of `applyDither`
(`for py in [by, min(by+ps, height)) for px in [bx, min(bx+ps, width))`). -/
def fillBlock (width height bx bz ps : ℕ) (c : Color) (data : ℕ → ℕ) : ℕ → ℕ :=
  (List.range' bz (min (bz + ps) height - bz)).foldl
    (fun d py =>
      (List.range' bx (min (bx + ps) width - bx)).foldl
        (fun d2 px => setPixel width c px py d2) d)
    data

/-- Flat index of the sampled center pixel of the block at `(bx, bz)`:
`sx = min(bx + ps/2, width-1)`, `sy = min(bz + ps/2, height-1)`,
`si = (sy*width + sx) * 4`. -/
def centerIndex (ps width height bx bz : ℕ) : ℕ :=
  (min (bz + ps / 2) (height - 1) * width + min (bx + ps / 2) (width - 1)) * 4

/-- Manhattan distance of the sampled pixel from the background color
(`Math.abs(r - bg.r) + Math.abs(g - bg.g) + Math.abs(b - bg.b)`). -/
def bgDiff (bg : Color) (r g b : ℕ) : ℕ :=
  ((r : ℤ) - bg.r).natAbs + ((g : ℤ) - bg.g).natAbs + ((b : ℤ) - bg.b).natAbs

/-- Luminance-like intensity of the sampled pixel, inverted in light mode. -/
def ditherIntensity (lightMode : Bool) (r g b : ℕ) : ℚ :=
  if lightMode then 1 - (r + g + b : ℚ) / (3 * 255) else (r + g + b : ℚ) / (3 * 255)

/-- Bayer threshold of the block at `(bx, bz)`: the 4×4 matrix is used when
`ps ≤ 4`, the 8×8 one otherwise. -/
def bayerThreshold (ps bx bz : ℕ) : ℚ :=
  ((if ps ≤ 4 then BAYER_4 else BAYER_8).getD
      (bz / ps % (if ps ≤ 4 then 4 else 8)) []).getD
    (bx / ps % (if ps ≤ 4 then 4 else 8)) 0

/-- Process one dither block: sample the block's center pixel; if it is
within tolerance 30 of the theme background, refill the block with pure
background; otherwise flat-fill it with foreground or background according
to the Bayer threshold comparison `intensity > threshold * 0.7`. -/
def processBlock (ps width height : ℕ) (lightMode : Bool) (data : ℕ → ℕ)
    (bx bz : ℕ) : ℕ → ℕ :=
  if bgDiff (getColors lightMode).1 (data (centerIndex ps width height bx bz))
      (data (centerIndex ps width height bx bz + 1))
      (data (centerIndex ps width height bx bz + 2)) < 30 then
    fillBlock width height bx bz ps (getColors lightMode).1 data
  else
    fillBlock width height bx bz ps
      (if bayerThreshold ps bx bz * 0.7
          < ditherIntensity lightMode (data (centerIndex ps width height bx bz))
              (data (centerIndex ps width height bx bz + 1))
              (data (centerIndex ps width height bx bz + 2))
       then (getColors lightMode).2 else (getColors lightMode).1)
      data

/-- Block start coordinates `0, ps, 2·ps, …` below `bound`
(the `for (let b = 0; b < bound; b += ps)` loop headers). -/
def blockStarts (bound ps : ℕ) : List ℕ :=
  (List.range ((bound + ps - 1) / ps)).map (· * ps)

/-- `applyDither` from `renderer.ts`: no-op when `ditherSize` is 0, else
process every block of the frame buffer, rows outer, columns inner. -/
def applyDither (ps width height : ℕ) (lightMode : Bool) (data : ℕ → ℕ) : ℕ → ℕ :=
  if ps = 0 then data
  else
    (blockStarts height ps).foldl
      (fun d bz =>
        (blockStarts width ps).foldl (fun d2 bx => processBlock ps width height lightMode d2 bx bz) d)
      data

/-- `setDitherSize` from `renderer.ts`: plain assignment to the module-level
`ditherSize` variable, modelled as returning the new value. -/
def setDitherSize (size : ℕ) : ℕ := size

/-- The frame buffer holds exactly the theme background color at every
in-bounds pixel (the alpha channel is unconstrained). -/
def FlatBg (width height : ℕ) (lightMode : Bool) (data : ℕ → ℕ) : Prop :=
  ∀ x, x < width → ∀ y, y < height →
    data ((y * width + x) * 4) = (getColors lightMode).1.r ∧
    data ((y * width + x) * 4 + 1) = (getColors lightMode).1.g ∧
    data ((y * width + x) * 4 + 2) = (getColors lightMode).1.b

instance decidableFlatBg (width height : ℕ) (lightMode : Bool) (data : ℕ → ℕ) :
    Decidable (FlatBg width height lightMode data) := by
  unfold FlatBg
  infer_instance

/-- Folding a step function that fixes the accumulator leaves it fixed. -/
lemma foldl_fixed {α β : Type} (f : α → β → α) (a : α) (l : List β)
    (h : ∀ x ∈ l, f a x = a) : l.foldl f a = a := by
  induction l with
  | nil => rfl
  | cons x xs ih =>
    rw [List.foldl_cons, h x (List.mem_cons_self x xs)]
    exact ih fun y hy => h y (List.mem_cons_of_mem x hy)

/-- Writing the background color into a pixel that already holds it leaves
the buffer (as a function) unchanged. -/
lemma setPixel_bg (width height : ℕ) (lightMode : Bool) (data : ℕ → ℕ)
    (hflat : FlatBg width height lightMode data) (px py : ℕ)
    (hx : px < width) (hy : py < height) :
    setPixel width (getColors lightMode).1 px py data = data := by
  obtain ⟨h1, h2, h3⟩ := hflat px hx py hy
  funext j
  simp only [setPixel, writeAt]
  split_ifs with e1 e2 e3
  · rw [e1, h3]
  · rw [e2, h2]
  · rw [e3, h1]
  · rfl

/-- Refilling any block with the background color of a flat-background
buffer leaves the buffer unchanged. -/
lemma fillBlock_bg (width height : ℕ) (lightMode : Bool) (data : ℕ → ℕ)
    (hflat : FlatBg width height lightMode data) (bx bz ps : ℕ) :
    fillBlock width height bx bz ps (getColors lightMode).1 data = data := by
  unfold fillBlock
  apply foldl_fixed
  intro py hpy
  apply foldl_fixed
  intro px hpx
  rw [List.mem_range'_1] at hpy hpx
  apply setPixel_bg width height lightMode data hflat px py
  · omega
  · omega

/-- Block starts lie strictly below the bound they tile. -/
lemma mem_blockStarts {bound ps b : ℕ} (hb : b ∈ blockStarts bound ps) : b < bound := by
  unfold blockStarts at hb
  rw [List.mem_map] at hb
  obtain ⟨k, hk, rfl⟩ := hb
  rw [List.mem_range] at hk
  by_cases hps : 0 < ps
  · have h2 : (k + 1) * ps ≤ bound + ps - 1 := (Nat.le_div_iff_mul_le hps).mp hk
    have h4 : (k + 1) * ps = k * ps + ps := by ring
    omega
  · have hz : ps = 0 := by omega
    subst hz
    rw [Nat.div_zero] at hk
    exact absurd hk (Nat.not_lt_zero k)

/-- Processing any in-range block of a flat-background buffer hits the
near-background short-circuit and leaves the buffer unchanged. -/
lemma processBlock_flat (ps width height : ℕ) (lightMode : Bool) (data : ℕ → ℕ)
    (hflat : FlatBg width height lightMode data) (bx bz : ℕ)
    (hbx : bx < width) (hbz : bz < height) :
    processBlock ps width height lightMode data bx bz = data := by
  have hsx : min (bx + ps / 2) (width - 1) < width := by omega
  have hsy : min (bz + ps / 2) (height - 1) < height := by omega
  obtain ⟨h1, h2, h3⟩ := hflat _ hsx _ hsy
  unfold processBlock
  rw [show centerIndex ps width height bx bz
      = (min (bz + ps / 2) (height - 1) * width + min (bx + ps / 2) (width - 1)) * 4
      from rfl, h1, h2, h3]
  rw [if_pos (by simp [bgDiff])]
  exact fillBlock_bg width height lightMode data hflat bx bz ps

/-- C7: for every buffer whose in-bounds pixels all hold the theme
background color exactly and every positive dither block size, the dither
pass leaves the buffer unchanged at every index: the near-background
short-circuit triggers for every block and refills it with pure
background. -/
theorem dither_flat_background (ps width height : ℕ) (lightMode : Bool)
    (data : ℕ → ℕ) (hps : 0 < ps) (hflat : FlatBg width height lightMode data) :
    ∀ i, applyDither ps width height lightMode data i = data i := by
  intro i
  have hall : applyDither ps width height lightMode data = data := by
    unfold applyDither
    rw [if_neg (by omega)]
    apply foldl_fixed
    intro bz hbz
    apply foldl_fixed
    intro bx hbx
    exact processBlock_flat ps width height lightMode data hflat bx bz
      (mem_blockStarts hbx) (mem_blockStarts hbz)
  rw [hall]

/-- A concrete flat dark-background RGBA buffer (alpha 255 everywhere). -/
def flatDarkBuffer : ℕ → ℕ :=
  fun i => if i % 4 = 0 then 10 else if i % 4 = 1 then 10 else if i % 4 = 2 then 12 else 255

/-- Witness for C7: an 8×8 solid dark-background buffer with block size 8 is
unchanged pixel-for-pixel. -/
theorem dither_flat_background_witness :
    0 < 8 ∧ FlatBg 8 8 false flatDarkBuffer ∧
    ∀ i, applyDither 8 8 8 false flatDarkBuffer i = flatDarkBuffer i :=
  ⟨by norm_num, by decide, dither_flat_background 8 8 8 false flatDarkBuffer
    (by norm_num) (by decide)⟩

/-- C10: with the dither block size set to 0, the dither pass returns the
frame buffer unchanged for every input buffer: `applyDither` short-circuits
before reading or writing any pixel. -/
theorem dither_size_zero_noop (width height : ℕ) (lightMode : Bool) (data : ℕ → ℕ) :
    applyDither (setDitherSize 0) width height lightMode data = data := rfl

/-! ## Audio readiness guards (`audio/transient.ts`, `audio/rain.ts`)

The audio device objects fetched from `audio/engine.ts` are modelled by
`Option`s: `none` is a `null` handle.  A transient call either schedules a
one-shot voice (described by its computed parameters) or returns `none`
without scheduling anything; the per-frame rain update either returns the
list of parameter ramps it schedules or `none`.  None of these functions
touch any module-level state in the source, so state is not threaded. -/

/-- The audio device context handle (`getAudioContext()`). -/
structure AudioCtx where
  currentTime : ℚ
  sampleRate : ℚ
deriving DecidableEq

/-- Handles the transient synth reads from the engine; `none` models `null`
(`getAudioContext()`, `getDryNode()`, `getReverbNode()`, `getDropsGain()`). -/
structure AudioEnv where
  ctx : Option AudioCtx
  dry : Option Unit
  reverb : Option Unit
  drops : Option Unit
deriving DecidableEq

/-- Module-level slider state of `audio/transient.ts`. -/
structure TransientSettings where
  resonanceQ : ℚ
  resonanceMix : ℚ
  reverbAmount : ℚ
  brightness : ℚ
deriving DecidableEq

/-- `config.dripVolume` from `config.ts`. -/
def configDripVolume : ℚ := 0.25

/-- Resonator configuration (`config.resonator` in `config.ts`). -/
structure ResonatorCfg where
  baseWetMix : ℚ
  maxWetMix : ℚ
  frequencies : List ℚ
  baseQ : ℚ
  maxQ : ℚ
deriving DecidableEq

/-- The default resonator configuration values of `config.ts`. -/
def resonatorConfig : ResonatorCfg :=
  { baseWetMix := 0, maxWetMix := 0, frequencies := [110, 165, 220, 330, 440],
    baseQ := 5, maxQ := 10 }

/-- Scheduling parameters of a one-shot filtered-noise voice (the random
buffer sample pattern itself is not observable and is not modelled). -/
structure Voice where
  startTime : ℚ
  stopTime : ℚ
  peak : ℚ
  hipassFreq : ℚ
  hipassQ : ℚ
  bandpassFreq : ℚ
  bandpassQ : ℚ
  lowpassFreq : ℚ
  lowpassQ : ℚ
  pan : ℚ
  sends : Option (ℚ × ℚ)
deriving DecidableEq

/-- Scheduling parameters of the resonant "ping" layered on a drop/drip. -/
structure PingVoice where
  startTime : ℚ
  freq : ℚ
  q : ℚ
  ringDuration : ℚ
  volume : ℚ
  pan : ℚ
  sends : Option (ℚ × ℚ)
deriving DecidableEq

/-- `playResonantPing` from `audio/transient.ts`; `uIdx` is the draw that
picks the resonator frequency. -/
def playResonantPing (env : AudioEnv) (st : TransientSettings)
    (x intensity uIdx : ℚ) : Option PingVoice :=
  match env.ctx, env.dry, env.reverb with
  | some ctx, some _, some _ =>
    if st.resonanceMix < 0.01 then none
    else
      some
        { startTime := ctx.currentTime
          freq := resonatorConfig.frequencies.getD
            (Int.toNat ((uIdx * (resonatorConfig.frequencies.length : ℚ)).floor)) 0
          q := 20 + st.resonanceQ * 60
          ringDuration := 0.3 + st.resonanceQ * 0.5
          volume := st.resonanceMix * intensity * 0.4
          pan := max (-1) (min 1 ((x - 0.5) * 1.5))
          sends :=
            if env.drops.isSome then some (1 - st.reverbAmount * 0.5, st.reverbAmount)
            else none }
  | _, _, _ => none

/-- `playDropSound` from `audio/transient.ts`: checked no-op (`none`) when
the context or the dry/reverb bus is `null`; otherwise the scheduled 20 ms
click voice and its optional resonant ping.  `uBand` and `uPan` are the
bandpass-frequency and pan-jitter draws, `uIdx` the ping frequency draw. -/
def playDropSound (env : AudioEnv) (st : TransientSettings)
    (x uBand uPan uIdx : ℚ) : Option (Voice × Option PingVoice) :=
  match env.ctx, env.dry, env.reverb with
  | some ctx, some _, some _ =>
    some
      ({ startTime := ctx.currentTime
         stopTime := ctx.currentTime + 0.02 + 0.01
         peak := 0.15
         hipassFreq := 1200
         hipassQ := 0.5
         bandpassFreq := 2000 + uBand * 1500
         bandpassQ := 1.2
         lowpassFreq := 800 + st.brightness * 5200
         lowpassQ := 0.7
         pan := max (-1) (min 1 ((x - 0.5) * 1.2 + (uPan - 0.5) * 0.8))
         sends :=
           if env.drops.isSome then some (1 - st.reverbAmount * 0.3, st.reverbAmount * 0.7)
           else none },
       if 0.01 < st.resonanceMix then playResonantPing env st x 0.8 uIdx else none)
  | _, _, _ => none

/-- `playDripSound` from `audio/transient.ts`: checked no-op (`none`) when
the context or the dry/reverb bus is `null`; otherwise the scheduled 5–20 ms
drip voice with per-call randomized parameters (`uVol uDur uHip uHipQ uBand
uBandQ uLow uPan uRev` draws) and its probability-gated resonant ping
(`uGate`, `uIdx`). -/
def playDripSound (env : AudioEnv) (st : TransientSettings)
    (x uVol uDur uHip uHipQ uBand uBandQ uLow uPan uRev uGate uIdx : ℚ) :
    Option (Voice × Option PingVoice) :=
  match env.ctx, env.dry, env.reverb with
  | some ctx, some _, some _ =>
    some
      ({ startTime := ctx.currentTime
         stopTime := ctx.currentTime + (0.005 + uDur * 0.015) + 0.01
         peak := configDripVolume * (0.25 + uVol * 0.5)
         hipassFreq := 800 + uHip * 1700
         hipassQ := 0.4 + uHipQ * 0.6
         bandpassFreq := 1500 + uBand * 2500
         bandpassQ := 0.8 + uBandQ * 1.5
         lowpassFreq := 600 + st.brightness * 4000 + uLow * 500
         lowpassQ := 0.5
         pan := max (-1) (min 1 ((x - 0.5) * 0.8 + (uPan - 0.5) * 1.4))
         sends :=
           if env.drops.isSome then
             some (1 - st.reverbAmount * 0.3, st.reverbAmount * (0.5 + uRev * 0.3))
           else none },
       if 0.01 < st.resonanceMix ∧ uGate < 0.3 then playResonantPing env st x 0.4 uIdx
       else none)
  | _, _, _ => none

/-- Module-level node state of `audio/rain.ts` relevant to `updateRain`:
the `isRunning` flag and whether the dry gain, wet gain and resonator
filters exist. -/
structure RainNodes where
  isRunning : Bool
  dryGain : Bool
  wetGain : Bool
  resonatorCount : ℕ
deriving DecidableEq

/-- One `setTargetAtTime(target, now, timeConstant)` parameter ramp. -/
structure Ramp where
  target : ℚ
  startTime : ℚ
  timeConstant : ℚ
deriving DecidableEq

/-- The ramps scheduled by one `updateRain` call. -/
structure RainUpdate where
  dryRamp : Option Ramp
  wetRamp : Option Ramp
  qRamps : List Ramp
deriving DecidableEq

/-- `updateRain` from `audio/rain.ts`: returns `none` (checked no-op) when
the synth is not running or the context is `null`; otherwise the
intensity-tracking ramps it schedules (dry volume, wet mix, resonator Q). -/
def updateRain (env : AudioEnv) (rain : RainNodes) (rcfg : ResonatorCfg)
    (intensity : ℚ) : Option RainUpdate :=
  if rain.isRunning = false then none
  else
    match env.ctx with
    | none => none
    | some ctx =>
      some
        { dryRamp :=
            if rain.dryGain then some ⟨lerp 0.12 0.22 intensity, ctx.currentTime, 0.15⟩
            else none
          wetRamp :=
            if rain.wetGain then
              some ⟨lerp rcfg.baseWetMix rcfg.maxWetMix intensity, ctx.currentTime, 0.2⟩
            else none
          qRamps :=
            List.replicate rain.resonatorCount
              ⟨lerp rcfg.baseQ rcfg.maxQ intensity, ctx.currentTime, 0.3⟩ }

/-- C8: every audio-triggering call made while the device context or a
required bus is absent, or (for the per-frame rain update) while the rain
synth is not running, is a checked no-op: it returns `none` — nothing is
scheduled, no state is modified, and no exception path exists. -/
theorem audio_calls_checked_noop (env : AudioEnv) (st : TransientSettings)
    (rain : RainNodes) (rcfg : ResonatorCfg)
    (x uBand uPan uIdx uVol uDur uHip uHipQ uBand2 uBandQ uLow uPan2 uRev uGate uIdx2
      intensity : ℚ)
    (hbus : env.ctx = none ∨ env.dry = none ∨ env.reverb = none) :
    playDropSound env st x uBand uPan uIdx = none ∧
    playDripSound env st x uVol uDur uHip uHipQ uBand2 uBandQ uLow uPan2 uRev uGate uIdx2
      = none ∧
    (rain.isRunning = false ∨ env.ctx = none → updateRain env rain rcfg intensity = none) := by
  obtain ⟨c, hc⟩ : ∃ c, env.ctx = c := ⟨env.ctx, rfl⟩
  obtain ⟨d, hd⟩ : ∃ d, env.dry = d := ⟨env.dry, rfl⟩
  obtain ⟨v, hv⟩ : ∃ v, env.reverb = v := ⟨env.reverb, rfl⟩
  refine ⟨?_, ?_, ?_⟩
  · cases c <;> cases d <;> cases v <;>
      simp_all [playDropSound]
  · cases c <;> cases d <;> cases v <;>
      simp_all [playDripSound]
  · intro hrun
    rcases hrun with hrun | hrun
    · simp [updateRain, hrun]
    · rw [updateRain, hrun]
      split <;> rfl

/-- A concrete audio environment with a live context and dry bus but a
missing reverb bus. -/
def witEnv : AudioEnv :=
  { ctx := some ⟨0, 48000⟩, dry := some (), reverb := none, drops := some () }

/-- Concrete transient slider state (the defaults of `audio/transient.ts`). -/
def witSettings : TransientSettings :=
  { resonanceQ := 0, resonanceMix := 0, reverbAmount := 0.2, brightness := 0.5 }

/-- Concrete rain node state: synth stopped. -/
def witRain : RainNodes :=
  { isRunning := false, dryGain := true, wetGain := true, resonatorCount := 5 }

/-- Witness for C8: a concrete environment with a live context but a missing
reverb bus, and a stopped rain synth. -/
theorem audio_calls_checked_noop_witness :
    (witEnv.ctx = none ∨ witEnv.dry = none ∨ witEnv.reverb = none) ∧
    (playDropSound witEnv witSettings 0.5 0 0 0 = none ∧
     playDripSound witEnv witSettings 0.5 0 0 0 0 0 0 0 0 0 0 0 = none ∧
     (witRain.isRunning = false ∨ witEnv.ctx = none →
       updateRain witEnv witRain resonatorConfig 0.3 = none)) :=
  ⟨Or.inr (Or.inr rfl),
    audio_calls_checked_noop witEnv witSettings witRain resonatorConfig
      0.5 0 0 0 0 0 0 0 0 0 0 0 0 0 0 0.3 (Or.inr (Or.inr rfl))⟩

end Drops
